import Mathlib

/-!
RDMA transfer server (`src/server.cc`).

A shallow embedding of the three pieces of `server.cc` that carry the
behaviour of the program:

* `ServerContext::BuildRdmaEnvironment` (lines 38-73),
* `ServerJrpcServer::ExchangeQP` (lines 100-144),
* the completion loop of `main` (lines 184-204).

Calls into the verbs library and into `rdma.h` are recorded as events of a
trace; what such a call returns is supplied by a record of externals.  The
constants `kRdmaQueueSize`, `kWriteSize`, `kGidIndex` and `kRdmaDefaultPort`
are declared in `rdma.h`, which is not part of the sources, and are therefore
parameters of every definition (`Config`).
-/

namespace RdmaServer

/-! ## Constants of `infiniband/verbs.h` used by the server -/

/-- The constant `IBV_LINK_LAYER_UNSPECIFIED` of `infiniband/verbs.h`. -/
def IBV_LINK_LAYER_UNSPECIFIED : Int := 0

/-- The constant `IBV_ACCESS_LOCAL_WRITE` of `infiniband/verbs.h`. -/
def IBV_ACCESS_LOCAL_WRITE : Nat := 1

/-- The constant `IBV_ACCESS_REMOTE_WRITE` of `infiniband/verbs.h`. -/
def IBV_ACCESS_REMOTE_WRITE : Nat := 2

/-- The constant `IBV_ACCESS_REMOTE_READ` of `infiniband/verbs.h`. -/
def IBV_ACCESS_REMOTE_READ : Nat := 4

/-- The constant `IBV_QPT_RC` of `infiniband/verbs.h`. -/
def IBV_QPT_RC : Nat := 2

/-- The constant `IBV_WC_SUCCESS` of `infiniband/verbs.h`. -/
def IBV_WC_SUCCESS : Nat := 0

/-- The work-request identifier `114514` that line 202 gives to the control
send and that line 191 compares every completion against. -/
def kCtrlWrId : Nat := 114514

/-- The immediate-data value `1919810` of the control send (line 202). -/
def kCtrlImmData : Nat := 1919810

/-- The compile-time constants of `rdma.h` the server refers to.  The ring
of `kRdmaQueueSize` slots is used as two halves of `kRdmaQueueSize / 2` slots
each (comment of lines 30-32), so `kRdmaQueueSize` is even; a theorem that
depends on this carries the hypothesis `kRdmaQueueSize % 2 = 0`. -/
structure Config where
  kRdmaQueueSize : Nat
  kWriteSize : Nat
  kGidIndex : Int
  kRdmaDefaultPort : Nat
deriving DecidableEq, Repr

/-! ## Data model -/

/-- The fields of `struct ibv_mr` the server reads. -/
structure ibv_mr where
  addr : Nat
  lkey : Nat
  rkey : Nat
deriving DecidableEq, Repr

/-- A queue pair: `handle` is the address of the `ibv_qp` object, `qp_num`
its number. -/
structure ibv_qp where
  handle : Nat
  qp_num : Nat
deriving DecidableEq, Repr

/-- The raw bytes of a `union ibv_gid`. -/
abbrev ibv_gid := List Nat

/-- The field of `ibv_port_attr` the server reads. -/
structure ibv_port_attr where
  lid : Nat
deriving DecidableEq, Repr

/-- The members of `RdmaDeviceInfo` the server reads: device context,
protection domain and port attributes (handles are addresses). -/
structure RdmaDeviceInfo where
  ctx : Nat
  pd : Nat
  port_attr : ibv_port_attr
deriving DecidableEq, Repr

/-- The connection identifier `RdmaQpExchangeInfo`. -/
structure RdmaQpExchangeInfo where
  lid : Nat
  qpNum : Nat
  gid : ibv_gid
  gid_index : Int
deriving DecidableEq, Repr

/-- The record `struct ServerContext` (lines 27-37).  A pointer member that may be
`nullptr` is an `Option`; `buf` is the address of the ring. -/
structure ServerContext where
  link_type : Int
  dev_info : RdmaDeviceInfo
  buf : Nat
  mr : Option ibv_mr
  cq : Option Nat
  qp : Option ibv_qp
  send_mr : Option ibv_mr
deriving DecidableEq, Repr

/-- The members of the request `req` that `ExchangeQP` reads. -/
structure Request where
  lid : Nat
  qp_num : Nat
  gid : String
  gid_index : Int
deriving DecidableEq, Repr

/-- The members of the response `resp` that `ExchangeQP` assigns. -/
structure Response where
  lid : Nat
  qp_num : Nat
  gid : String
  gid_index : Int
  rkey : Nat
  remote_addr : Nat
deriving DecidableEq, Repr

/-- The fields of `struct ibv_wc` (a completion entry). -/
structure ibv_wc where
  wr_id : Nat
  status : Nat
  imm_data : Nat
deriving DecidableEq, Repr

/-- What the program does that is visible outside it: writes to `cerr` and
`stdout`, calls into the verbs library and `rdma.h`, and `exit`.  The
arguments are those of the call, in the order of the call. -/
inductive Event where
  | cerr (msg : String)
  | printInfo (label : String) (info : RdmaQpExchangeInfo) (gid : String)
  | printReceived (imm_data : Nat)
  | RdmaGetRdmaDeviceInfoByNames (names : List String)
  | memalign (alignment size : Nat)
  | ibv_reg_mr (pd addr length access : Nat)
  | CreateCq (size : Nat)
  | RdmaCreateQp (pd : Nat) (send_cq recv_cq : Option Nat) (size qp_type : Nat)
  | ibv_query_gid (ctx port : Nat) (index : Int)
  | RdmaModifyQp2Rts (qp : ibv_qp) (local_info remote_info : RdmaQpExchangeInfo)
  | RdmaPostRecv (size lkey wr_id : Nat) (qp : ibv_qp) (buf : Nat)
  | RdmaPostSend (size lkey wr_id imm_data : Nat) (qp : Option ibv_qp) (buf : Nat)
  | exit (status : Int)
deriving DecidableEq, Repr

/-- How a function ends: it returns, the process exits, or a null pointer is
dereferenced. -/
inductive Outcome (α : Type) where
  | returned (value : α)
  | exited (status : Int)
  | fault
deriving DecidableEq, Repr

/-- The events of a run, oldest first, and how it ended. -/
structure Run (α : Type) where
  trace : List Event
  outcome : Outcome α
deriving DecidableEq, Repr

/-! ## `ServerContext::BuildRdmaEnvironment` -/

/-- What the calls made by `BuildRdmaEnvironment` return.  The lookup maps
the names and the incoming `link_type` to the devices found and the value of
`link_type` after the call; the other fields are the results of the calls of
lines 49, 50, 57, 58 and 67. -/
structure BuildExternals where
  RdmaGetRdmaDeviceInfoByNames : List String → Int → List RdmaDeviceInfo × Int
  buf : Nat
  mr : Option ibv_mr
  small_buf : Nat
  send_mr : Option ibv_mr
  cq : Option Nat

/-- The access flags of both registrations (lines 51-52 and 59-60). -/
def kMrAccess : Nat :=
  IBV_ACCESS_LOCAL_WRITE ||| IBV_ACCESS_REMOTE_WRITE ||| IBV_ACCESS_REMOTE_READ

/-- The method `ServerContext::BuildRdmaEnvironment(dev_name)`, lines 38-73. -/
def BuildRdmaEnvironment (cfg : Config) (ext : BuildExternals) (s : ServerContext)
    (dev_name : String) : Run ServerContext :=
  -- 1. dev_info and pd
  let found := ext.RdmaGetRdmaDeviceInfoByNames [dev_name] IBV_LINK_LAYER_UNSPECIFIED
  let dev_infos := found.1
  let link_type := found.2
  let t1 := [Event.RdmaGetRdmaDeviceInfoByNames [dev_name]]
  if dev_infos.length ≠ 1 ∨ link_type = IBV_LINK_LAYER_UNSPECIFIED then
    ⟨t1 ++ [.cerr ("query " ++ dev_name ++ "failed"), .exit 0], .exited 0⟩
  else
    match dev_infos.head? with
    | none => ⟨t1, .fault⟩
    | some dev_info =>
      -- 2. mr and buffer
      let size := cfg.kWriteSize * cfg.kRdmaQueueSize
      let t2 := t1 ++ [.memalign 4096 size, .ibv_reg_mr dev_info.pd ext.buf size kMrAccess]
      match ext.mr with
      | none => ⟨t2 ++ [.cerr "register mr failed", .exit 0], .exited 0⟩
      | some mr =>
        let t3 := t2 ++ [.memalign 4096 4096,
                         .ibv_reg_mr dev_info.pd ext.small_buf 4096 kMrAccess]
        match ext.send_mr with
        | none => ⟨t3 ++ [.cerr "register send_mr failed", .exit 0], .exited 0⟩
        | some send_mr =>
          -- 3. create cq
          let t4 := t3 ++ [.CreateCq cfg.kRdmaQueueSize]
          match ext.cq with
          | none => ⟨t4 ++ [.cerr "create cq failed", .exit 0], .exited 0⟩
          | some cq =>
            ⟨t4, .returned
              { s with link_type := link_type, dev_info := dev_info, buf := ext.buf,
                       mr := some mr, send_mr := some send_mr, cq := some cq,
                       qp := none }⟩

/-! ## `ServerJrpcServer::ExchangeQP` -/

/-- What the calls made by `ExchangeQP` return: the queue pair of line 104,
the gid that `ibv_query_gid` stores (line 113), and the two gid conversions
of `rdma.h`. -/
structure ExchangeExternals where
  qp : Option ibv_qp
  gid : ibv_gid
  RdmaGid2Str : ibv_gid → String
  RdmaStr2Gid : String → ibv_gid

/-- The slot indices visited by `for (size_t i = kRdmaQueueSize / 2;
i < kRdmaQueueSize; i++)` (line 131), in order. -/
def recvSlots (cfg : Config) : List Nat :=
  List.range' (cfg.kRdmaQueueSize / 2) (cfg.kRdmaQueueSize - cfg.kRdmaQueueSize / 2)

/-- The body of the loop of lines 131-135 for slot `i`: `recv_buf` is the
address `s_ctx.buf + i * kWriteSize` inside the ring, and the third argument
of `RdmaPostRecv` is that address as a `uint64_t`. -/
def postRecvSlot (cfg : Config) (buf : Nat) (mr : ibv_mr) (qp : ibv_qp) (i : Nat) : Event :=
  let recv_buf := buf + i * cfg.kWriteSize
  .RdmaPostRecv cfg.kWriteSize mr.lkey recv_buf qp recv_buf

/-- The method `ServerJrpcServer::ExchangeQP(req, resp)`, lines 100-144, on the global
`s_ctx`.  It returns the new `s_ctx` and the response. -/
def ExchangeQP (cfg : Config) (ext : ExchangeExternals) (s : ServerContext)
    (req : Request) : Run (ServerContext × Response) :=
  let t0 : List Event := if s.qp ≠ none then [.cerr "qp already inited"] else []
  let t1 := t0 ++ [.RdmaCreateQp s.dev_info.pd s.cq s.cq cfg.kRdmaQueueSize IBV_QPT_RC]
  let s1 := { s with qp := ext.qp }
  match ext.qp with
  | none => ⟨t1 ++ [.cerr "create qp failed", .exit 0], .exited 0⟩
  | some qp =>
    let local_info : RdmaQpExchangeInfo :=
      { lid := s1.dev_info.port_attr.lid, qpNum := qp.qp_num, gid := ext.gid,
        gid_index := cfg.kGidIndex }
    let t2 := t1 ++ [.ibv_query_gid s1.dev_info.ctx cfg.kRdmaDefaultPort cfg.kGidIndex,
                     .printInfo "local" local_info (ext.RdmaGid2Str local_info.gid)]
    let remote_info : RdmaQpExchangeInfo :=
      { lid := req.lid % 2 ^ 16, qpNum := req.qp_num, gid := ext.RdmaStr2Gid req.gid,
        gid_index := req.gid_index }
    let t3 := t2 ++ [.printInfo "remote" local_info (ext.RdmaGid2Str local_info.gid),
                     .RdmaModifyQp2Rts qp local_info remote_info]
    match s1.mr with
    | none => ⟨t3, .fault⟩
    | some mr =>
      let t4 := t3 ++ (recvSlots cfg).map (postRecvSlot cfg s1.buf mr qp)
      let resp : Response :=
        { lid := local_info.lid, qp_num := local_info.qpNum,
          gid := ext.RdmaGid2Str local_info.gid, gid_index := local_info.gid_index,
          rkey := mr.rkey, remote_addr := s1.buf }
      ⟨t4, .returned (s1, resp)⟩

/-! ## The completion loop of `main` -/

/-- Subtraction of `uint64_t` values. -/
def sub64 (a b : Nat) : Nat := (a % 2 ^ 64 + 2 ^ 64 - b % 2 ^ 64) % 2 ^ 64

/-- The value `which` of lines 196-198:
`(wr_id - (uint64_t) s_ctx.buf) / kWriteSize - (kRdmaQueueSize / 2)`. -/
def whichSlot (cfg : Config) (buf wr_id : Nat) : Nat :=
  sub64 (sub64 wr_id buf / cfg.kWriteSize) (cfg.kRdmaQueueSize / 2)

/-- The state of the loop: the local `batch_send_cnt` of line 184 and the
events so far. -/
structure PollState where
  batch_send_cnt : Nat
  trace : List Event
deriving DecidableEq, Repr

/-- The part of `s_ctx` the loop reads.  `main` reaches the loop only after
`BuildRdmaEnvironment` has returned, so `s_ctx.send_mr` is not null there. -/
structure PollContext where
  buf : Nat
  send_mr : ibv_mr
  qp : Option ibv_qp
deriving DecidableEq, Repr

/-- The body of `for (int i = 0; i < n; i++)` for the entry `wc[i]`, lines
187-198: the optional debug output, the sentinel test with `continue`, the
increment of `batch_send_cnt` and the computation of `which`, which is not used
afterwards.  `debug` says whether `SHOW_DEBUG_INFO` is defined.

The text of `main` lacks the brace that closes this block.  Lines 199-204 are
indented as statements of the `while` block, and `DestroyRdmaEnvironment` and
`return 0` (lines 205-207) are indented as statements of `main` after the loop;
the missing brace therefore stands between lines 198 and 199, and the test of
lines 200-203 is not part of this body (see `pollOnce`). -/
def pollStep (cfg : Config) (debug : Bool) (c : PollContext) (st : PollState)
    (wc : ibv_wc) : PollState :=
  let st1 : PollState :=
    if debug then { st with trace := st.trace ++ [.printReceived wc.imm_data] } else st
  if wc.wr_id = kCtrlWrId then
    st1
  else
    let cnt := st1.batch_send_cnt + 1
    let wr_id := wc.wr_id
    let _which := whichSlot cfg c.buf wr_id
    { st1 with batch_send_cnt := cnt }

/-- The `for` loop of lines 187-198 over the `n` entries that `ibv_poll_cq`
stored in `wc`. -/
def pollEntries (cfg : Config) (debug : Bool) (c : PollContext) (st : PollState)
    (wcs : List ibv_wc) : PollState :=
  wcs.foldl (pollStep cfg debug c) st

/-- One iteration of `while (should_infini_loop)`, lines 186-204: the entries
of one call of `ibv_poll_cq` are processed, then the test of lines 200-203 runs
once: when `batch_send_cnt == kRdmaQueueSize / 2` the counter is reset and the
control send is posted. -/
def pollOnce (cfg : Config) (debug : Bool) (c : PollContext) (st : PollState)
    (wcs : List ibv_wc) : PollState :=
  let st1 := pollEntries cfg debug c st wcs
  if st1.batch_send_cnt = cfg.kRdmaQueueSize / 2 then
    { batch_send_cnt := 0,
      trace := st1.trace ++
        [.RdmaPostSend 4 c.send_mr.lkey kCtrlWrId kCtrlImmData c.qp c.send_mr.addr] }
  else
    st1

/-- The `while` loop of lines 185-204 over the results of the successive
calls of `ibv_poll_cq` made until `should_infini_loop` is cleared. -/
def pollLoop (cfg : Config) (debug : Bool) (c : PollContext) (st : PollState)
    (polls : List (List ibv_wc)) : PollState :=
  polls.foldl (pollOnce cfg debug c) st

/-- The state in which `main` enters the loop: `int batch_send_cnt = 0`. -/
def pollStart : PollState := { batch_send_cnt := 0, trace := [] }

/-! ## Observations on runs of the loop -/

/-- A control signal: a call of `RdmaPostSend`. -/
def isCtrlSend : Event → Bool
  | .RdmaPostSend _ _ _ _ _ _ => true
  | _ => false

/-- The control signal of line 202. -/
def ctrlSend (c : PollContext) : Event :=
  .RdmaPostSend 4 c.send_mr.lkey kCtrlWrId kCtrlImmData c.qp c.send_mr.addr

/-- The control signals of a trace, oldest first. -/
def signals (t : List Event) : List Event := t.filter isCtrlSend

/-- The immediate-data values carried by the control signals of a trace,
oldest first. -/
def signalImms (t : List Event) : List Nat :=
  t.filterMap fun
    | .RdmaPostSend _ _ _ imm_data _ _ => some imm_data
    | _ => none

/-- The number of entries whose `wr_id` is not the sentinel. -/
def dataCount (wcs : List ibv_wc) : Nat := wcs.countP fun wc => wc.wr_id ≠ kCtrlWrId

/-- The debug output of one poll. -/
def debugOutput (debug : Bool) (wcs : List ibv_wc) : List Event :=
  if debug then wcs.map fun wc => .printReceived wc.imm_data else []

/-- The 16-slot ring of 4096-byte slots. -/
def cfg16 : Config :=
  { kRdmaQueueSize := 16, kWriteSize := 4096, kGidIndex := 3, kRdmaDefaultPort := 1 }

/-- A loop context: ring at `0x10000`, control region at `0x90000`. -/
def pollCtxEx : PollContext :=
  { buf := 65536, send_mr := { addr := 589824, lkey := 21, rkey := 22 },
    qp := some { handle := 700, qp_num := 77 } }

/-- Successful receive completions of the slots `lo, …, lo + n - 1` of the
ring of `pollCtxEx`. -/
def dataEntries (cfg : Config) (lo n : Nat) : List ibv_wc :=
  (List.range' lo n).map fun i =>
    { wr_id := pollCtxEx.buf + i * cfg.kWriteSize, status := IBV_WC_SUCCESS, imm_data := i }

/-- A receive work request: a call of `RdmaPostRecv`. -/
def isPostRecv : Event → Bool
  | .RdmaPostRecv _ _ _ _ _ => true
  | _ => false

/-- The receive work requests of a trace, oldest first. -/
def recvPosts (t : List Event) : List Event := t.filter isPostRecv

/-- The `wr_id` of a receive work request. -/
def recvWrId : Event → Option Nat
  | .RdmaPostRecv _ _ wr_id _ _ => some wr_id
  | _ => none

/-- The `wr_id`s of the receive work requests of a trace, oldest first. -/
def recvWrIds (t : List Event) : List Nat := t.filterMap recvWrId

/-- A memory registration or the creation of the completion queue. -/
def isRegistration : Event → Bool
  | .ibv_reg_mr _ _ _ _ => true
  | .CreateCq _ => true
  | _ => false

/-- A device with local identifier `5`. -/
def devEx : RdmaDeviceInfo := { ctx := 100, pd := 200, port_attr := { lid := 5 } }

/-- The global `s_ctx` before `BuildRdmaEnvironment`: zero-initialised. -/
def ctxZero : ServerContext :=
  { link_type := 0, dev_info := { ctx := 0, pd := 0, port_attr := { lid := 0 } }, buf := 0,
    mr := none, cq := none, qp := none, send_mr := none }

/-- Externals under which every call of `BuildRdmaEnvironment` succeeds for
the device `mlx5_0`. -/
def buildExtEx : BuildExternals :=
  { RdmaGetRdmaDeviceInfoByNames := fun names _ =>
      if names = ["mlx5_0"] then ([devEx], 1) else ([], 0),
    buf := 65536, mr := some { addr := 65536, lkey := 11, rkey := 12 },
    small_buf := 589824, send_mr := some { addr := 589824, lkey := 21, rkey := 22 },
    cq := some 300 }

/-- As `buildExtEx`, but the registration of the ring fails. -/
def buildExtMrFails : BuildExternals := { buildExtEx with mr := none }

/-- The context `BuildRdmaEnvironment` leaves under `buildExtEx`. -/
def ctxBuilt : ServerContext :=
  { link_type := 1, dev_info := devEx, buf := 65536,
    mr := some { addr := 65536, lkey := 11, rkey := 12 }, cq := some 300, qp := none,
    send_mr := some { addr := 589824, lkey := 21, rkey := 22 } }

/-- A context in which a queue pair already exists. -/
def ctxConnected : ServerContext := { ctxBuilt with qp := some { handle := 700, qp_num := 77 } }

/-- Externals of an exchange: a fresh queue pair number `88`; gids are
rendered byte by byte. -/
def exchExtEx : ExchangeExternals :=
  { qp := some { handle := 800, qp_num := 88 },
    gid := [254, 128, 0, 0, 0, 0, 0, 0, 2, 0, 0, 0, 0, 0, 0, 1],
    RdmaGid2Str := fun g => String.mk (g.map Char.ofNat),
    RdmaStr2Gid := fun str => str.data.map Char.toNat }

/-- A request of a peer. -/
def reqEx : Request := { lid := 9, qp_num := 99, gid := "peer", gid_index := 3 }

/-! ## The completion loop: lemmas -/

theorem pollStep_trace (cfg : Config) (debug : Bool) (c : PollContext) (st : PollState)
    (wc : ibv_wc) :
    (pollStep cfg debug c st wc).trace =
      st.trace ++ (if debug then [Event.printReceived wc.imm_data] else []) := by
  unfold pollStep
  cases debug <;> by_cases h1 : wc.wr_id = kCtrlWrId <;> simp [h1]

theorem pollStep_cnt (cfg : Config) (debug : Bool) (c : PollContext) (st : PollState)
    (wc : ibv_wc) :
    (pollStep cfg debug c st wc).batch_send_cnt =
      if wc.wr_id = kCtrlWrId then st.batch_send_cnt else st.batch_send_cnt + 1 := by
  unfold pollStep
  cases debug <;> by_cases h1 : wc.wr_id = kCtrlWrId <;> simp [h1]

theorem dataCount_cons (wc : ibv_wc) (wcs : List ibv_wc) :
    dataCount (wc :: wcs) = (if wc.wr_id = kCtrlWrId then 0 else 1) + dataCount wcs := by
  unfold dataCount
  by_cases h : wc.wr_id = kCtrlWrId <;> simp [List.countP_cons, h, Nat.add_comm]

theorem pollEntries_cnt (cfg : Config) (debug : Bool) (c : PollContext)
    (wcs : List ibv_wc) (st : PollState) :
    (pollEntries cfg debug c st wcs).batch_send_cnt = st.batch_send_cnt + dataCount wcs := by
  induction wcs generalizing st with
  | nil => simp [pollEntries, dataCount]
  | cons wc wcs ih =>
    have h : pollEntries cfg debug c st (wc :: wcs) =
        pollEntries cfg debug c (pollStep cfg debug c st wc) wcs := rfl
    rw [h, ih, pollStep_cnt, dataCount_cons]
    by_cases h1 : wc.wr_id = kCtrlWrId
    · simp [h1]
    · simp [h1]
      omega

theorem pollEntries_trace (cfg : Config) (debug : Bool) (c : PollContext)
    (wcs : List ibv_wc) (st : PollState) :
    (pollEntries cfg debug c st wcs).trace = st.trace ++ debugOutput debug wcs := by
  induction wcs generalizing st with
  | nil => cases debug <;> simp [pollEntries, debugOutput]
  | cons wc wcs ih =>
    have h : pollEntries cfg debug c st (wc :: wcs) =
        pollEntries cfg debug c (pollStep cfg debug c st wc) wcs := rfl
    rw [h, ih, pollStep_trace]
    cases debug <;> simp [debugOutput]

/-- The counter lives outside the `while` loop, so it is carried from one poll
to the next. -/
theorem pollLoop_append_singleton (cfg : Config) (debug : Bool) (c : PollContext)
    (st : PollState) (polls : List (List ibv_wc)) (wcs : List ibv_wc) :
    pollLoop cfg debug c st (polls ++ [wcs]) =
      pollOnce cfg debug c (pollLoop cfg debug c st polls) wcs := by
  simp [pollLoop, List.foldl_append]

theorem pollOnce_trace (cfg : Config) (debug : Bool) (c : PollContext) (st : PollState)
    (wcs : List ibv_wc) :
    (pollOnce cfg debug c st wcs).trace =
      st.trace ++ (debugOutput debug wcs ++
        (if st.batch_send_cnt + dataCount wcs = cfg.kRdmaQueueSize / 2
          then [ctrlSend c] else [])) := by
  unfold pollOnce
  simp only [pollEntries_cnt]
  by_cases h : st.batch_send_cnt + dataCount wcs = cfg.kRdmaQueueSize / 2
  · rw [if_pos h, if_pos h]
    simp only [pollEntries_trace, ctrlSend, List.append_assoc]
  · rw [if_neg h, if_neg h, pollEntries_trace, List.append_nil]

theorem signals_append (t u : List Event) : signals (t ++ u) = signals t ++ signals u := by
  simp [signals]

theorem signals_debugOutput (debug : Bool) (wcs : List ibv_wc) :
    signals (debugOutput debug wcs) = [] := by
  unfold signals debugOutput
  rw [List.filter_eq_nil_iff]
  intro e he
  cases debug with
  | false => simp at he
  | true =>
    simp only [if_true] at he
    obtain ⟨wc, _, rfl⟩ := List.mem_map.mp he
    simp [isCtrlSend]

theorem signals_poll_suffix (debug : Bool) (wcs : List ibv_wc) (p : Prop) [Decidable p]
    (c : PollContext) :
    signals (debugOutput debug wcs ++ (if p then [ctrlSend c] else [])) =
      if p then [ctrlSend c] else [] := by
  rw [signals_append, signals_debugOutput, List.nil_append]
  by_cases hp : p
  · rw [if_pos hp]; rfl
  · rw [if_neg hp]; rfl

/-- C2: an entry whose `wr_id` is the sentinel `114514` leaves `batch_send_cnt`
unchanged and emits no control signal, whatever the counter is; without
`SHOW_DEBUG_INFO` it leaves the whole state unchanged. -/
theorem sentinel_entry_is_skipped (cfg : Config) (debug : Bool) (c : PollContext)
    (st : PollState) (wc : ibv_wc) (h : wc.wr_id = kCtrlWrId) :
    (pollStep cfg debug c st wc).batch_send_cnt = st.batch_send_cnt ∧
    signals (pollStep cfg debug c st wc).trace = signals st.trace ∧
    pollStep cfg false c st wc = st := by
  refine ⟨?_, ?_, ?_⟩
  · rw [pollStep_cnt, if_pos h]
  · rw [pollStep_trace, signals_append]
    have hd : signals (if debug then [Event.printReceived wc.imm_data] else []) = [] := by
      cases debug <;> rfl
    rw [hd, List.append_nil]
  · simp [pollStep, h]

/-- Witness for C2: a sentinel completion met with the counter at `7` of `8`. -/
theorem sentinel_entry_is_skipped_witness :
    (pollStep cfg16 true pollCtxEx { batch_send_cnt := 7, trace := [] }
        { wr_id := 114514, status := 0, imm_data := 5 }).batch_send_cnt = 7 ∧
    signals (pollStep cfg16 true pollCtxEx { batch_send_cnt := 7, trace := [] }
        { wr_id := 114514, status := 0, imm_data := 5 }).trace = [] :=
  ⟨(sentinel_entry_is_skipped cfg16 true pollCtxEx { batch_send_cnt := 7, trace := [] }
      { wr_id := 114514, status := 0, imm_data := 5 } rfl).1,
   (sentinel_entry_is_skipped cfg16 true pollCtxEx { batch_send_cnt := 7, trace := [] }
      { wr_id := 114514, status := 0, imm_data := 5 } rfl).2.1⟩

theorem signalImms_append (t u : List Event) :
    signalImms (t ++ u) = signalImms t ++ signalImms u := by
  simp [signalImms]

theorem signalImms_debugOutput (debug : Bool) (wcs : List ibv_wc) :
    signalImms (debugOutput debug wcs) = [] := by
  unfold signalImms debugOutput
  rw [List.filterMap_eq_nil_iff]
  intro e he
  cases debug with
  | false => simp at he
  | true =>
    simp only [if_true] at he
    obtain ⟨wc, _, rfl⟩ := List.mem_map.mp he
    rfl

theorem signalImms_poll_suffix (debug : Bool) (wcs : List ibv_wc) (p : Prop) [Decidable p]
    (c : PollContext) :
    signalImms (debugOutput debug wcs ++ (if p then [ctrlSend c] else [])) =
      if p then [kCtrlImmData] else [] := by
  rw [signalImms_append, signalImms_debugOutput, List.nil_append]
  by_cases hp : p
  · rw [if_pos hp, if_pos hp]; rfl
  · rw [if_neg hp, if_neg hp]; rfl

/-- C7 (amended): every control signal of a run of the loop carries the same
immediate-data value `1919810`; the values of successive signals are therefore
non-decreasing, never strictly increasing. -/
theorem control_signal_imm_data_constant (cfg : Config) (debug : Bool) (c : PollContext)
    (polls : List (List ibv_wc)) :
    signalImms (pollLoop cfg debug c pollStart polls).trace =
        List.replicate (signals (pollLoop cfg debug c pollStart polls).trace).length
          kCtrlImmData ∧
    List.Pairwise (fun a b => a ≤ b)
      (signalImms (pollLoop cfg debug c pollStart polls).trace) := by
  have key : signalImms (pollLoop cfg debug c pollStart polls).trace =
      List.replicate (signals (pollLoop cfg debug c pollStart polls).trace).length
        kCtrlImmData := by
    induction polls using List.reverseRecOn with
    | nil => simp [pollLoop, pollStart, signals, signalImms]
    | append_singleton polls wcs ih =>
      rw [pollLoop_append_singleton, pollOnce_trace, signalImms_append, signals_append,
        signalImms_poll_suffix, signals_poll_suffix, ih, List.length_append]
      by_cases hp : (pollLoop cfg debug c pollStart polls).batch_send_cnt + dataCount wcs =
          cfg.kRdmaQueueSize / 2
      · rw [if_pos hp, if_pos hp, List.length_singleton, List.replicate_succ']
      · rw [if_neg hp, if_neg hp]
        simp
  refine ⟨key, ?_⟩
  rw [key, List.pairwise_replicate]
  exact Or.inr (Nat.le_refl _)

/-- C7 as stated fails: on the 16-slot ring two polls of eight receive
completions emit two control signals, both with immediate data `1919810`, so the
later one is not strictly larger than the earlier one. -/
theorem control_signal_imm_data_not_increasing :
    signalImms (pollLoop cfg16 false pollCtxEx pollStart
      [dataEntries cfg16 8 8, dataEntries cfg16 8 8]).trace = [1919810, 1919810] ∧
    ¬ List.Pairwise (fun a b => a < b)
      (signalImms (pollLoop cfg16 false pollCtxEx pollStart
        [dataEntries cfg16 8 8, dataEntries cfg16 8 8]).trace) := by
  decide

theorem pollEntries_status (cfg : Config) (debug : Bool) (c : PollContext) (st : PollState)
    (wc : ibv_wc) (status : Nat) (before after : List ibv_wc) :
    pollEntries cfg debug c st (before ++ { wc with status := status } :: after) =
      pollEntries cfg debug c st (before ++ wc :: after) := by
  simp only [pollEntries, List.foldl_append, List.foldl_cons]
  rw [show pollStep cfg debug c (List.foldl (pollStep cfg debug c) st before)
      { wc with status := status } =
      pollStep cfg debug c (List.foldl (pollStep cfg debug c) st before) wc from rfl]

/-- C8 (amended): the loop never reads the status of a completion entry.  An
entry reporting a non-success status is processed exactly as the same entry
reporting success (skipped if its `wr_id` is the sentinel, counted as a
data-transfer completion otherwise); the body has no abort path, and the entries
that follow it in the poll, and the later polls, are processed from the state it
leaves. -/
theorem completion_status_is_ignored (cfg : Config) (debug : Bool) (c : PollContext)
    (st : PollState) (wc : ibv_wc) (status : Nat) (before after : List ibv_wc)
    (earlier later : List (List ibv_wc)) :
    pollStep cfg debug c st { wc with status := status } = pollStep cfg debug c st wc ∧
    pollEntries cfg debug c st (before ++ { wc with status := status } :: after) =
      pollEntries cfg debug c
        (pollStep cfg debug c (pollEntries cfg debug c st before) wc) after ∧
    pollLoop cfg debug c st
        (earlier ++ (before ++ { wc with status := status } :: after) :: later) =
      pollLoop cfg debug c
        (pollOnce cfg debug c (pollLoop cfg debug c st earlier) (before ++ wc :: after))
        later := by
  refine ⟨rfl, ?_, ?_⟩
  · rw [pollEntries_status]
    simp only [pollEntries, List.foldl_append, List.foldl_cons]
  · simp only [pollLoop, List.foldl_append, List.foldl_cons]
    congr 1
    unfold pollOnce
    rw [pollEntries_status]

/-- C8 as stated fails: a completion with status `5` (not `IBV_WC_SUCCESS`)
leaves exactly the state that the same completion with status success leaves,
with debug output on; it is counted as a data-transfer completion and nothing
reports an error. -/
theorem failed_completion_not_classified :
    (5 : Nat) ≠ IBV_WC_SUCCESS ∧
    pollStep cfg16 true pollCtxEx { batch_send_cnt := 2, trace := [] }
        { wr_id := 65536 + 9 * 4096, status := 5, imm_data := 1 } =
      pollStep cfg16 true pollCtxEx { batch_send_cnt := 2, trace := [] }
        { wr_id := 65536 + 9 * 4096, status := IBV_WC_SUCCESS, imm_data := 1 } ∧
    pollStep cfg16 true pollCtxEx { batch_send_cnt := 2, trace := [] }
        { wr_id := 65536 + 9 * 4096, status := 5, imm_data := 1 } =
      { batch_send_cnt := 3, trace := [Event.printReceived 1] } := by
  decide

/-! ## `ExchangeQP`: lemmas -/

theorem recvPosts_append (t u : List Event) : recvPosts (t ++ u) = recvPosts t ++ recvPosts u := by
  simp [recvPosts]

theorem recvWrIds_append (t u : List Event) : recvWrIds (t ++ u) = recvWrIds t ++ recvWrIds u := by
  simp [recvWrIds]

theorem recvPosts_map_postRecvSlot (cfg : Config) (buf : Nat) (mr : ibv_mr) (qp : ibv_qp)
    (l : List Nat) :
    recvPosts (l.map (postRecvSlot cfg buf mr qp)) = l.map (postRecvSlot cfg buf mr qp) := by
  unfold recvPosts
  rw [List.filter_eq_self]
  intro e he
  obtain ⟨i, _, rfl⟩ := List.mem_map.mp he
  rfl

theorem recvWrIds_map_postRecvSlot (cfg : Config) (buf : Nat) (mr : ibv_mr) (qp : ibv_qp)
    (l : List Nat) :
    recvWrIds (l.map (postRecvSlot cfg buf mr qp)) = l.map (fun i => buf + i * cfg.kWriteSize) := by
  induction l with
  | nil => rfl
  | cons i l ih =>
    have : recvWrIds (List.map (postRecvSlot cfg buf mr qp) (i :: l)) =
        (buf + i * cfg.kWriteSize) :: recvWrIds (List.map (postRecvSlot cfg buf mr qp) l) := rfl
    rw [this, ih]
    rfl

/-- The shape of every run of `ExchangeQP` that returns. -/
theorem ExchangeQP_returned (cfg : Config) (ext : ExchangeExternals) (s : ServerContext)
    (req : Request) (t : List Event) (s' : ServerContext) (resp : Response)
    (h : ExchangeQP cfg ext s req = ⟨t, .returned (s', resp)⟩) :
    ∃ mr qp pre, s.mr = some mr ∧ ext.qp = some qp ∧
      t = pre ++ (recvSlots cfg).map (postRecvSlot cfg s.buf mr qp) ∧
      recvPosts pre = [] ∧ recvWrIds pre = [] ∧
      s' = { s with qp := some qp } ∧
      resp = { lid := s.dev_info.port_attr.lid, qp_num := qp.qp_num,
               gid := ext.RdmaGid2Str ext.gid, gid_index := cfg.kGidIndex,
               rkey := mr.rkey, remote_addr := s.buf } := by
  unfold ExchangeQP at h
  cases hqp : ext.qp with
  | none => simp [hqp] at h
  | some qp =>
    cases hmr : s.mr with
    | none => simp [hqp, hmr] at h
    | some mr =>
      simp only [hqp, hmr] at h
      injection h with ht ho
      injection ho with hv
      injection hv with hs hr
      refine ⟨mr, qp, _, rfl, rfl, ht.symm, ?_, ?_, hs.symm, hr.symm⟩
      · cases hq : s.qp <;> simp [recvPosts, isPostRecv, List.filter_cons]
      · cases hq : s.qp <;> simp [recvWrIds, recvWrId, List.filterMap_cons]


theorem mem_recvSlots (cfg : Config) (i : Nat) :
    i ∈ recvSlots cfg ↔ cfg.kRdmaQueueSize / 2 ≤ i ∧ i < cfg.kRdmaQueueSize := by
  unfold recvSlots
  rw [List.mem_range'_1]
  omega

theorem slot_address_injective (k buf : Nat) (hk : 0 < k) :
    Function.Injective (fun i => buf + i * k) := by
  intro a b h
  have h1 : a * k = b * k := by
    have h2 : buf + a * k = buf + b * k := h
    omega
  exact Nat.eq_of_mul_eq_mul_right hk h1

/-- C3 (the code at a duplicate call): with a queue pair already present
(handle `700`, number `77`) `ExchangeQP` writes `qp already inited` to `cerr` and
goes on: it calls `RdmaCreateQp`, stores the new queue pair (handle `800`, number
`88`) in `s_ctx.qp`, posts the eight receive buffers and returns an ordinary
response. -/
theorem duplicate_exchange_replaces_queue_pair :
    ctxConnected.qp = some { handle := 700, qp_num := 77 } ∧
    (ExchangeQP cfg16 exchExtEx ctxConnected reqEx).outcome =
      .returned ({ ctxConnected with qp := some { handle := 800, qp_num := 88 } },
        { lid := 5, qp_num := 88, gid := exchExtEx.RdmaGid2Str exchExtEx.gid, gid_index := 3,
          rkey := 12, remote_addr := 65536 }) ∧
    (ExchangeQP cfg16 exchExtEx ctxConnected reqEx).trace.take 2 =
      [.cerr "qp already inited", .RdmaCreateQp 200 (some 300) (some 300) 16 IBV_QPT_RC] ∧
    (recvPosts (ExchangeQP cfg16 exchExtEx ctxConnected reqEx).trace).length = 8 := by
  decide

/-- C4: the ring being two halves (`kRdmaQueueSize` even), every call of
`ExchangeQP` that returns posts exactly `kRdmaQueueSize / 2` receive work
requests, one for each slot index `i` with
`kRdmaQueueSize / 2 ≤ i < kRdmaQueueSize` in increasing order, each of length
`kWriteSize` at address `base + i * kWriteSize` with that address as its `wr_id`;
no index below `kRdmaQueueSize / 2` is visited, and for `kWriteSize > 0` the
posted `wr_id`s are pairwise distinct and none is the address of a slot of the
write-target half. -/
theorem exchange_posts_receive_half (cfg : Config) (ext : ExchangeExternals)
    (s : ServerContext) (req : Request) (t : List Event) (s' : ServerContext)
    (resp : Response) (heven : cfg.kRdmaQueueSize % 2 = 0)
    (h : ExchangeQP cfg ext s req = ⟨t, .returned (s', resp)⟩) :
    ∃ mr qp, s.mr = some mr ∧ ext.qp = some qp ∧
      recvPosts t = (recvSlots cfg).map (fun i =>
        Event.RdmaPostRecv cfg.kWriteSize mr.lkey (s.buf + i * cfg.kWriteSize) qp
          (s.buf + i * cfg.kWriteSize)) ∧
      (recvPosts t).length = cfg.kRdmaQueueSize / 2 ∧
      List.Pairwise (fun a b => a < b) (recvSlots cfg) ∧
      (∀ i, i ∈ recvSlots cfg ↔ cfg.kRdmaQueueSize / 2 ≤ i ∧ i < cfg.kRdmaQueueSize) ∧
      (0 < cfg.kWriteSize → (recvWrIds t).Nodup) ∧
      (0 < cfg.kWriteSize → ∀ i, i < cfg.kRdmaQueueSize / 2 →
        s.buf + i * cfg.kWriteSize ∉ recvWrIds t) := by
  obtain ⟨mr, qp, pre, hmr, hqp, ht, hpre, hpre', _, _⟩ :=
    ExchangeQP_returned cfg ext s req t s' resp h
  have hposts : recvPosts t = (recvSlots cfg).map (postRecvSlot cfg s.buf mr qp) := by
    rw [ht, recvPosts_append, hpre, List.nil_append, recvPosts_map_postRecvSlot]
  have hids : recvWrIds t = (recvSlots cfg).map (fun i => s.buf + i * cfg.kWriteSize) := by
    rw [ht, recvWrIds_append, hpre', List.nil_append, recvWrIds_map_postRecvSlot]
  have hlen : (recvPosts t).length = cfg.kRdmaQueueSize / 2 := by
    rw [hposts, List.length_map, recvSlots, List.length_range']
    omega
  refine ⟨mr, qp, hmr, hqp, hposts, hlen, ?_, mem_recvSlots cfg, ?_, ?_⟩
  · unfold recvSlots
    exact List.pairwise_lt_range' _ _
  · intro hk
    rw [hids]
    exact (List.nodup_range' _ _).map (slot_address_injective _ _ hk)
  · intro hk i hi hmem
    rw [hids] at hmem
    obtain ⟨j, hj, hji⟩ := List.mem_map.mp hmem
    have := slot_address_injective cfg.kWriteSize s.buf hk hji
    have hj' := (mem_recvSlots cfg j).mp hj
    have hij : j = i := this
    omega

/-- Witness for C4: the first exchange on the 16-slot ring posts eight receive
buffers. -/
theorem exchange_posts_receive_half_witness :
    ∃ mr qp, ctxBuilt.mr = some mr ∧ exchExtEx.qp = some qp ∧
      recvPosts (ExchangeQP cfg16 exchExtEx ctxBuilt reqEx).trace =
        (recvSlots cfg16).map (fun i =>
          Event.RdmaPostRecv cfg16.kWriteSize mr.lkey (ctxBuilt.buf + i * cfg16.kWriteSize) qp
            (ctxBuilt.buf + i * cfg16.kWriteSize)) ∧
      (recvPosts (ExchangeQP cfg16 exchExtEx ctxBuilt reqEx).trace).length = 16 / 2 :=
  let ⟨mr, qp, h1, h2, h3, h4, _⟩ :=
    exchange_posts_receive_half cfg16 exchExtEx ctxBuilt reqEx
      (ExchangeQP cfg16 exchExtEx ctxBuilt reqEx).trace
      { ctxBuilt with qp := some { handle := 800, qp_num := 88 } }
      { lid := 5, qp_num := 88, gid := exchExtEx.RdmaGid2Str exchExtEx.gid, gid_index := 3,
        rkey := 12, remote_addr := 65536 } (by decide) (by rfl)
  ⟨mr, qp, h1, h2, h3, h4⟩

theorem sub64_of_le (a b : Nat) (ha : a < 2 ^ 64) (hb : b ≤ a) : sub64 a b = a - b := by
  unfold sub64
  rw [Nat.mod_eq_of_lt ha, Nat.mod_eq_of_lt (Nat.lt_of_le_of_lt hb ha)]
  have h : a + 2 ^ 64 - b = (a - b) + 2 ^ 64 := by omega
  rw [h, Nat.add_mod_right, Nat.mod_eq_of_lt (by omega)]

theorem whichSlot_of_slot_address (cfg : Config) (buf i : Nat) (hk : 0 < cfg.kWriteSize)
    (hlo : cfg.kRdmaQueueSize / 2 ≤ i) (hfit : buf + i * cfg.kWriteSize < 2 ^ 64) :
    whichSlot cfg buf (buf + i * cfg.kWriteSize) = i - cfg.kRdmaQueueSize / 2 := by
  have hi : i ≤ i * cfg.kWriteSize := Nat.le_mul_of_pos_right i hk
  unfold whichSlot
  rw [sub64_of_le _ _ hfit (Nat.le_add_right _ _), Nat.add_sub_cancel_left,
    Nat.mul_div_cancel _ hk, sub64_of_le _ _ (by omega) hlo]

/-- C5: slot recovery undoes receive tagging.  The ring being two halves
(`kRdmaQueueSize` even), for `kWriteSize > 0` and a slot index `i` with
`kRdmaQueueSize / 2 ≤ i < kRdmaQueueSize` whose address `base + i * kWriteSize`
fits in 64 bits, the computation `(wr_id - base) / kWriteSize - kRdmaQueueSize / 2`
of the loop, applied to the `wr_id` that `ExchangeQP` gives to slot `i`, yields
`i - kRdmaQueueSize / 2`, which lies in `[0, kRdmaQueueSize / 2)`. -/
theorem slot_recovery_inverts_tagging (cfg : Config) (buf : Nat) (mr : ibv_mr) (qp : ibv_qp)
    (i : Nat) (heven : cfg.kRdmaQueueSize % 2 = 0) (hk : 0 < cfg.kWriteSize)
    (hlo : cfg.kRdmaQueueSize / 2 ≤ i) (hhi : i < cfg.kRdmaQueueSize)
    (hfit : buf + i * cfg.kWriteSize < 2 ^ 64) :
    (recvWrId (postRecvSlot cfg buf mr qp i)).map (whichSlot cfg buf) =
      some (i - cfg.kRdmaQueueSize / 2) ∧
    i - cfg.kRdmaQueueSize / 2 < cfg.kRdmaQueueSize / 2 := by
  refine ⟨?_, by omega⟩
  have h : recvWrId (postRecvSlot cfg buf mr qp i) = some (buf + i * cfg.kWriteSize) := rfl
  rw [h, Option.map_some', whichSlot_of_slot_address cfg buf i hk hlo hfit]

/-- Witness for C5: slot `11` of the 16-slot ring at `0x10000` is recovered
as receive slot `3`, which is below `8`. -/
theorem slot_recovery_inverts_tagging_witness :
    (recvWrId (postRecvSlot cfg16 65536 { addr := 65536, lkey := 11, rkey := 12 }
        { handle := 800, qp_num := 88 } 11)).map (whichSlot cfg16 65536) = some (11 - 16 / 2) ∧
    11 - 16 / 2 < 16 / 2 :=
  slot_recovery_inverts_tagging cfg16 65536 { addr := 65536, lkey := 11, rkey := 12 }
    { handle := 800, qp_num := 88 } 11 (by decide) (by decide) (by decide) (by decide)
    (by decide)

/-- C6: in every call of `ExchangeQP` that returns, the response carries the
base address of the ring as `remote_addr`, the `rkey` of the transfer region
`s_ctx.mr`, the `lid` of the local port, the number of the queue pair just
created, the queried local gid as a string and `kGidIndex`; the response is the
same for every request and for every control-signal region `s_ctx.send_mr`. -/
theorem exchange_response_fields (cfg : Config) (ext : ExchangeExternals)
    (s : ServerContext) (req : Request) (t : List Event) (s' : ServerContext)
    (resp : Response) (h : ExchangeQP cfg ext s req = ⟨t, .returned (s', resp)⟩) :
    ∃ mr qp, s.mr = some mr ∧ ext.qp = some qp ∧ s'.qp = some qp ∧ s'.mr = some mr ∧
      s'.buf = s.buf ∧
      resp.remote_addr = s.buf ∧ resp.rkey = mr.rkey ∧
      resp.lid = s.dev_info.port_attr.lid ∧ resp.qp_num = qp.qp_num ∧
      resp.gid = ext.RdmaGid2Str ext.gid ∧ resp.gid_index = cfg.kGidIndex ∧
      (∀ req2 : Request, (ExchangeQP cfg ext s req2).outcome = .returned (s', resp)) ∧
      (∀ sm : Option ibv_mr, (ExchangeQP cfg ext { s with send_mr := sm } req).outcome =
        .returned ({ s' with send_mr := sm }, resp)) := by
  obtain ⟨mr, qp, pre, hmr, hqp, _, _, _, hs, hr⟩ :=
    ExchangeQP_returned cfg ext s req t s' resp h
  subst hs hr
  refine ⟨mr, qp, hmr, hqp, rfl, hmr, rfl, rfl, rfl, rfl, rfl, rfl, rfl, ?_, ?_⟩
  · intro req2
    simp [ExchangeQP, hqp, hmr]
  · intro sm
    simp [ExchangeQP, hqp, hmr]

/-- Witness for C6: the first exchange on the 16-slot ring answers a request
with `lid = 9`, `qp_num = 99` by `lid = 5`, `qp_num = 88`, `rkey = 12` (the
control region has `rkey = 22`) and `remote_addr = 0x10000`. -/
theorem exchange_response_fields_witness :
    ∃ mr qp, ctxBuilt.mr = some mr ∧ exchExtEx.qp = some qp ∧
      (65536 : Nat) = ctxBuilt.buf ∧ (12 : Nat) = mr.rkey ∧
      (5 : Nat) = ctxBuilt.dev_info.port_attr.lid ∧ (88 : Nat) = qp.qp_num :=
  let ⟨mr, qp, h1, h2, _, _, _, h6, h7, h8, h9, _⟩ :=
    exchange_response_fields cfg16 exchExtEx ctxBuilt reqEx
      (ExchangeQP cfg16 exchExtEx ctxBuilt reqEx).trace
      { ctxBuilt with qp := some { handle := 800, qp_num := 88 } }
      { lid := 5, qp_num := 88, gid := exchExtEx.RdmaGid2Str exchExtEx.gid, gid_index := 3,
        rkey := 12, remote_addr := 65536 } (by rfl)
  ⟨mr, qp, h1, h2, h6, h7, h8, h9⟩

theorem recvWrIds_exchange_trace (cfg : Config) (ext : ExchangeExternals) (s : ServerContext)
    (req : Request) (w : Nat) (hw : w ∈ recvWrIds (ExchangeQP cfg ext s req).trace) :
    ∃ i, w = s.buf + i * cfg.kWriteSize := by
  unfold ExchangeQP at hw
  cases hqp : ext.qp with
  | none =>
    cases hq : s.qp <;>
      simp [hqp, hq, recvWrIds, recvWrId, List.filterMap_cons] at hw
  | some qp =>
    cases hmr : s.mr with
    | none =>
      cases hq : s.qp <;>
        simp [hqp, hmr, hq, recvWrIds, recvWrId, List.filterMap_cons] at hw
    | some mr =>
      simp only [hqp, hmr] at hw
      rw [recvWrIds_append, recvWrIds_map_postRecvSlot] at hw
      rcases List.mem_append.mp hw with h1 | h1
      · exfalso
        revert h1
        cases hq : s.qp <;> simp [recvWrIds, recvWrId, List.filterMap_cons]
      · obtain ⟨i, _, hi⟩ := List.mem_map.mp h1
        exact ⟨i, hi.symm⟩

/-- C10: when the base address of the ring is a multiple of 4096 and
`kWriteSize` is a multiple of 4, every `wr_id` that `ExchangeQP` gives to a
posted receive buffer differs from the sentinel `114514`, and the loop counts each
completion carrying such a `wr_id` as a data-transfer completion: the increment
of line 194 is reached and the counter goes up by one. -/
theorem receive_wr_id_never_sentinel (cfg : Config) (ext : ExchangeExternals)
    (s : ServerContext) (req : Request) (hbase : s.buf % 4096 = 0)
    (hk : cfg.kWriteSize % 4 = 0) (wr_id : Nat)
    (hmem : wr_id ∈ recvWrIds (ExchangeQP cfg ext s req).trace) :
    wr_id ≠ kCtrlWrId ∧
    ∀ (debug : Bool) (c : PollContext) (st : PollState) (wc : ibv_wc), wc.wr_id = wr_id →
      (pollStep cfg debug c st wc).batch_send_cnt = st.batch_send_cnt + 1 := by
  obtain ⟨i, rfl⟩ := recvWrIds_exchange_trace cfg ext s req wr_id hmem
  have hne : s.buf + i * cfg.kWriteSize ≠ kCtrlWrId := by
    intro heq
    have h4 : (s.buf + i * cfg.kWriteSize) % 4 = 0 := by
      have h1 : s.buf % 4 = 0 := by omega
      have h2 : (i * cfg.kWriteSize) % 4 = 0 := by
        rw [Nat.mul_mod, hk, Nat.mul_zero, Nat.zero_mod]
      omega
    rw [heq] at h4
    exact absurd h4 (by decide)
  refine ⟨hne, ?_⟩
  intro debug c st wc hwc
  rw [pollStep_cnt, if_neg (by rw [hwc]; exact hne)]

/-- Witness for C10: the `wr_id` of slot `8` of the 16-slot ring at `0x10000`. -/
theorem receive_wr_id_never_sentinel_witness :
    65536 + 8 * 4096 ≠ kCtrlWrId ∧
    (pollStep cfg16 false pollCtxEx { batch_send_cnt := 7, trace := [] }
      { wr_id := 65536 + 8 * 4096, status := 0, imm_data := 0 }).batch_send_cnt = 7 + 1 :=
  ⟨(receive_wr_id_never_sentinel cfg16 exchExtEx ctxBuilt reqEx (by decide) (by decide)
      (65536 + 8 * 4096) (by decide)).1,
   (receive_wr_id_never_sentinel cfg16 exchExtEx ctxBuilt reqEx (by decide) (by decide)
      (65536 + 8 * 4096) (by decide)).2 false pollCtxEx { batch_send_cnt := 7, trace := [] }
      { wr_id := 65536 + 8 * 4096, status := 0, imm_data := 0 } rfl⟩


/-! ## `BuildRdmaEnvironment` -/

/-- C9 (amended): `BuildRdmaEnvironment` returns whenever the lookup yields
exactly one device with a determined link layer and both registrations and the
creation of the completion queue yield non-null results, and it then leaves a
non-null completion queue, two non-null memory regions and `qp = nullptr`; when
the lookup yields one device with a determined link layer but a registration or
the creation of the completion queue yields null, the process exits with status
`0`; and when the lookup yields zero or several devices, or the link layer stays
unspecified, the process exits with status `0` before any memory region is
registered or the completion queue is created. -/
theorem build_environment_outcomes (cfg : Config) (ext : BuildExternals) (s : ServerContext)
    (dev_name : String) :
    (∀ d lt m sm cq,
      ext.RdmaGetRdmaDeviceInfoByNames [dev_name] IBV_LINK_LAYER_UNSPECIFIED = ([d], lt) →
      lt ≠ IBV_LINK_LAYER_UNSPECIFIED → ext.mr = some m → ext.send_mr = some sm →
      ext.cq = some cq →
        (BuildRdmaEnvironment cfg ext s dev_name).outcome =
          .returned { link_type := lt, dev_info := d, buf := ext.buf, mr := some m,
                      cq := some cq, qp := none, send_mr := some sm }) ∧
    (∀ d lt,
      ext.RdmaGetRdmaDeviceInfoByNames [dev_name] IBV_LINK_LAYER_UNSPECIFIED = ([d], lt) →
      lt ≠ IBV_LINK_LAYER_UNSPECIFIED →
      (ext.mr = none ∨ ext.send_mr = none ∨ ext.cq = none) →
        (BuildRdmaEnvironment cfg ext s dev_name).outcome = .exited 0) ∧
    (((ext.RdmaGetRdmaDeviceInfoByNames [dev_name] IBV_LINK_LAYER_UNSPECIFIED).1.length ≠ 1 ∨
        (ext.RdmaGetRdmaDeviceInfoByNames [dev_name] IBV_LINK_LAYER_UNSPECIFIED).2 =
          IBV_LINK_LAYER_UNSPECIFIED) →
        (BuildRdmaEnvironment cfg ext s dev_name).outcome = .exited 0 ∧
        (BuildRdmaEnvironment cfg ext s dev_name).trace =
          [.RdmaGetRdmaDeviceInfoByNames [dev_name],
           .cerr ("query " ++ dev_name ++ "failed"), .exit 0] ∧
        (BuildRdmaEnvironment cfg ext s dev_name).trace.filter isRegistration = []) := by
  refine ⟨?_, ?_, ?_⟩
  · intro d lt m sm cq hl hlt hm hsm hcq
    simp [BuildRdmaEnvironment, hl, hlt, hm, hsm, hcq]
  · intro d lt hl hlt hnone
    cases hm : ext.mr with
    | none => simp [BuildRdmaEnvironment, hl, hlt, hm]
    | some m =>
      cases hsm : ext.send_mr with
      | none => simp [BuildRdmaEnvironment, hl, hlt, hm, hsm]
      | some sm =>
        cases hcq : ext.cq with
        | none => simp [BuildRdmaEnvironment, hl, hlt, hm, hsm, hcq]
        | some cq => simp [hm, hsm, hcq] at hnone
  · intro hbad
    have hrun : BuildRdmaEnvironment cfg ext s dev_name =
        ⟨[.RdmaGetRdmaDeviceInfoByNames [dev_name],
          .cerr ("query " ++ dev_name ++ "failed"), .exit 0], .exited 0⟩ := by
      unfold BuildRdmaEnvironment
      simp only []
      rw [if_pos hbad]
      rfl
    rw [hrun]
    exact ⟨rfl, rfl, rfl⟩

/-- Witness for C9: the device `mlx5_0` is set up, a failed registration of
the control region exits, and the unknown device `eth0` exits before anything is
registered. -/
theorem build_environment_outcomes_witness :
    (BuildRdmaEnvironment cfg16 buildExtEx ctxZero "mlx5_0").outcome = .returned ctxBuilt ∧
    (BuildRdmaEnvironment cfg16 { buildExtEx with send_mr := none } ctxZero "mlx5_0").outcome =
      .exited 0 ∧
    (BuildRdmaEnvironment cfg16 buildExtEx ctxZero "eth0").trace.filter isRegistration = [] :=
  ⟨(build_environment_outcomes cfg16 buildExtEx ctxZero "mlx5_0").1 devEx 1
      { addr := 65536, lkey := 11, rkey := 12 } { addr := 589824, lkey := 21, rkey := 22 } 300
      (by decide) (by decide) rfl rfl rfl,
   (build_environment_outcomes cfg16 { buildExtEx with send_mr := none } ctxZero "mlx5_0").2.1
      devEx 1 (by decide) (by decide) (Or.inr (Or.inl rfl)),
   ((build_environment_outcomes cfg16 buildExtEx ctxZero "eth0").2.2
      (Or.inl (by decide))).2.2⟩

/-- C9 as stated fails: the lookup of `mlx5_0` yields exactly one device with
link layer `1` (determined), yet the registration of the ring yields null and the
process exits with status `0` instead of completing the set-up. -/
theorem build_fails_when_registration_fails :
    buildExtMrFails.RdmaGetRdmaDeviceInfoByNames ["mlx5_0"] IBV_LINK_LAYER_UNSPECIFIED =
      ([devEx], 1) ∧
    (1 : Int) ≠ IBV_LINK_LAYER_UNSPECIFIED ∧
    BuildRdmaEnvironment cfg16 buildExtMrFails ctxZero "mlx5_0" =
      ⟨[.RdmaGetRdmaDeviceInfoByNames ["mlx5_0"], .memalign 4096 (4096 * 16),
        .ibv_reg_mr 200 65536 (4096 * 16) 7, .cerr "register mr failed", .exit 0],
       .exited 0⟩ := by
  decide

end RdmaServer

